import Mathlib

/-!
Verification of the airport-trolley mapping service.

The development embeds, over `ℝ` and plain Lean data types, the parts of the
repository that the specification's claims are about:

* `utilities/reusables.py` — `calculate_distance`, the Haversine great-circle
  distance.  Python floats are modelled as real numbers; `math.sqrt` and
  `math.asin` are modelled as `Option`-valued functions that return `none`
  exactly where the Python functions raise a `ValueError` (argument outside
  their domain).
* `apps/app.py` — the `navigate`, `add_facility`,
  `add_multiple_facilities_batch` and `get_all_facilities` handlers, modelled
  as pure functions from a request plus the committed facility table to an
  HTTP outcome and the new committed table.  Response bodies are elided down
  to the status code and error indicator; the claims only concern those and
  the stored records.
* `user_models/tables.py` — the `AirportFacility` record (the `created_at`
  timestamp column is omitted: no claim mentions it).

Python's `float(...)` string conversion, used by `navigate` on query
parameters and on the stored coordinate string, is modelled by `pyFloat`
over `ℚ`: it accepts optionally signed decimal literals with optional
fraction and exponent, surrounded by optional whitespace, and yields the
exact decimal value.  The `inf`/`nan` spellings, digit underscores and the
rounding to binary64 are not modelled.
-/

namespace AirportTrolly

noncomputable section

/-- Model of Python's `math.radians`: degrees to radians. -/
def radians (d : ℝ) : ℝ := d * Real.pi / 180

/-- Model of Python's `math.sqrt`: raises `ValueError` (here `none`) on a
negative argument, otherwise the nonnegative square root. -/
def pySqrt (x : ℝ) : Option ℝ :=
  if x < 0 then none else some (Real.sqrt x)

/-- Model of Python's `math.asin`: raises `ValueError` (here `none`) outside
`[-1, 1]`, otherwise the inverse sine. -/
def pyAsin (x : ℝ) : Option ℝ :=
  if x < -1 ∨ 1 < x then none else some (Real.arcsin x)

/-- The Haversine intermediate `a` computed by `calculate_distance` in
`utilities/reusables.py`: after converting the four inputs to radians,
`a = sin(dlat/2)**2 + cos(lat1) * cos(lat2) * sin(dlon/2)**2`. -/
def haverA (lat1 lng1 lat2 lng2 : ℝ) : ℝ :=
  Real.sin ((radians lat2 - radians lat1) / 2) ^ 2 +
    Real.cos (radians lat1) * Real.cos (radians lat2) *
      Real.sin ((radians lng2 - radians lng1) / 2) ^ 2

/-- Embedding of `calculate_distance` from `utilities/reusables.py`:
`c = 2 * math.asin(math.sqrt(a))`, `km = 6371 * c`.  The result is `none`
exactly when `math.sqrt` or `math.asin` would raise on its argument. -/
def calculate_distance (lat1 lng1 lat2 lng2 : ℝ) : Option ℝ :=
  let a := haverA lat1 lng1 lat2 lng2
  (pySqrt a).bind fun s => (pyAsin s).map fun t => 6371 * (2 * t)

/-- Modelled from the spec: the five-step Haversine reference definition of
§4.1 (radians conversion, `dlat`/`dlon`, `a`, `c = 2·asin(sqrt a)`,
`distance = 6371·c`), written with the total real-valued `sqrt`/`arcsin`. -/
def haversine_reference (lat1 lng1 lat2 lng2 : ℝ) : ℝ :=
  let rlat1 := radians lat1
  let rlng1 := radians lng1
  let rlat2 := radians lat2
  let rlng2 := radians lng2
  let dlat := rlat2 - rlat1
  let dlon := rlng2 - rlng1
  let a := Real.sin (dlat / 2) ^ 2 + Real.cos rlat1 * Real.cos rlat2 * Real.sin (dlon / 2) ^ 2
  let c := 2 * Real.arcsin (Real.sqrt a)
  6371 * c

end

/-- The `airport_facilities` record of `user_models/tables.py`
(`created_at` omitted; no claim concerns it). -/
structure AirportFacility where
  id : Nat
  name : String
  category : String
  coordinates : String
  description : String
deriving DecidableEq

/-- A JSON request body for the facility write endpoints: `data.get(k)`
yields `none` when the key is absent. -/
structure FacilityInput where
  name : Option String
  category : Option String
  coordinates : Option String
  description : Option String
deriving DecidableEq

/-- An HTTP response, elided to its status code and error indicator. -/
structure HttpResponse where
  status : Nat
  error : Option String
deriving DecidableEq

/-- Python falsiness of an optional string: `not x` is true for a missing
value (`None`) and for the empty string. -/
def falsy : Option String → Bool
  | none => true
  | some s => s == ""

/-- The facility row built by the write endpoints from a request body whose
required fields are present; `description` defaults to `""`
(`data.get('description', '')`). -/
def mkFacility (fid : Nat) (it : FacilityInput) : AirportFacility :=
  { id := fid
    name := it.name.getD ""
    category := it.category.getD ""
    coordinates := it.coordinates.getD ""
    description := it.description.getD "" }

/-- Embedding of the `POST /airport/facilities` handler (`add_facility` in
`apps/app.py`): `data['name']`, `data['category']`, `data['coordinates']`
raise `KeyError` when absent, caught by the blanket `except` branch (500,
nothing committed); otherwise the row is stored as given — the coordinates
string is not parsed or validated — and 201 is returned.  The autoincrement
primary key is modelled as one past the current table length. -/
def add_facility (st : List AirportFacility) (data : FacilityInput) :
    HttpResponse × List AirportFacility :=
  match data.name, data.category, data.coordinates with
  | some n, some c, some coords =>
    let newFacility : AirportFacility :=
      { id := st.length + 1, name := n, category := c, coordinates := coords
        description := data.description.getD "" }
    ({ status := 201, error := none }, st ++ [newFacility])
  | _, _, _ => ({ status := 500, error := some "Internal server error" }, st)

/-- The staging loop of the batch-add handler: walk the items in order; on
the first item with a falsy `name`, `category` or `coordinates` the handler
returns 400 before `session.commit()` (here `none`); otherwise every staged
row, with consecutive autoincrement ids. -/
def stageAll (fid : Nat) : List FacilityInput → Option (List AirportFacility)
  | [] => some []
  | it :: rest =>
    if falsy it.name || falsy it.category || falsy it.coordinates then none
    else (stageAll (fid + 1) rest).map fun tl => mkFacility fid it :: tl

/-- Embedding of the `POST /airport/facilities/batch` handler
(`add_multiple_facilities_batch` in `apps/app.py`).  The committed table is
returned: an early 400 return happens before `session.commit()`, so the
committed table is unchanged on that path; on success all rows are appended.
The `isinstance(facilities_data, list)` check is discharged by typing the
request as a list. -/
def add_multiple_facilities_batch (st : List AirportFacility)
    (items : List FacilityInput) : HttpResponse × List AirportFacility :=
  match stageAll (st.length + 1) items with
  | none => ({ status := 400, error := some "Missing required fields" }, st)
  | some news => ({ status := 201, error := none }, st ++ news)

/-- Python's `s.split(',')` on a character list: split at every comma,
keeping empty pieces, with `[[]]` for the empty string. -/
def splitOnComma : List Char → List (List Char)
  | [] => [[]]
  | c :: r =>
    if c = ',' then [] :: splitOnComma r
    else
      match splitOnComma r with
      | [] => [[c]]
      | g :: gs => (c :: g) :: gs

/-- Numeric value of a digit string (most significant first). -/
def digitsToNat (l : List Char) : Nat :=
  l.foldl (fun acc c => acc * 10 + (c.toNat - 48)) 0

/-- Optional exponent suffix of a Python float literal: empty, or
`(e|E)[+|-]digits` consuming the whole remainder, scaling mantissa `m`. -/
def parseExp (m : ℚ) : List Char → Option ℚ
  | [] => some m
  | c :: r =>
    if c = 'e' ∨ c = 'E' then
      let signed : Int × List Char :=
        match r with
        | '+' :: t => (1, t)
        | '-' :: t => (-1, t)
        | t => (1, t)
      let ds := signed.2.takeWhile Char.isDigit
      let rest := signed.2.dropWhile Char.isDigit
      if ds.isEmpty || !rest.isEmpty then none
      else some (m * (10 : ℚ) ^ (signed.1 * (digitsToNat ds : Int)))
    else none

/-- Unsigned body of a Python float literal: `digits`, `digits.digits?` or
`.digits`, then an optional exponent; anything else is rejected. -/
def parseBody (l : List Char) : Option ℚ :=
  let ip := l.takeWhile Char.isDigit
  let r1 := l.dropWhile Char.isDigit
  match r1 with
  | '.' :: r2 =>
    let fp := r2.takeWhile Char.isDigit
    let r3 := r2.dropWhile Char.isDigit
    if ip.isEmpty && fp.isEmpty then none
    else parseExp ((digitsToNat ip : ℚ) + (digitsToNat fp : ℚ) / (10 : ℚ) ^ fp.length) r3
  | _ =>
    if ip.isEmpty then none
    else parseExp (digitsToNat ip : ℚ) r1

/-- Model of Python's `float(str)` on a character list: strip surrounding
whitespace, optional sign, then a decimal literal; `none` where `float`
raises `ValueError`.  (`inf`/`nan` spellings, digit underscores and binary64
rounding are not modelled; values are exact rationals.) -/
def pyFloatChars (l : List Char) : Option ℚ :=
  let t := ((l.dropWhile Char.isWhitespace).reverse.dropWhile Char.isWhitespace).reverse
  match t with
  | '+' :: r => parseBody r
  | '-' :: r => (parseBody r).map Neg.neg
  | r => parseBody r

/-- Model of Python's `float(str)` on a string. -/
def pyFloat (s : String) : Option ℚ := pyFloatChars s.toList

/-- A coordinates string that splits into exactly two comma-separated
numeric substrings (the invariant the navigation consumer requires). -/
def validCoordString (coords : String) : Bool :=
  match splitOnComma coords.toList with
  | [a, b] => (pyFloatChars a).isSome && (pyFloatChars b).isSome
  | _ => false

/-- Outcome of the `/navigate` handler, up to the external maps call:
`directions` carries the parsed origin and destination handed to
`gmaps.directions`; every other constructor is an error JSON response
(400, 404, 400 and 500 respectively). -/
inductive NavOutcome where
  | missingParams : NavOutcome
  | facilityNotFound : NavOutcome
  | invalidCoordinates : NavOutcome
  | internalError : NavOutcome
  | directions : ℚ × ℚ → ℚ × ℚ → NavOutcome
deriving DecidableEq

/-- Embedding of the `GET /navigate` handler (`navigate` in `apps/app.py`):
falsy query parameters give 400; a failed facility lookup gives 404; a
coordinates string that does not split into two pieces gives the 400
"Invalid coordinates format" response; a `float()` failure on the query
parameters or on either coordinate piece raises `ValueError`, caught by the
blanket `except` branch (500); otherwise the parsed pairs go to the maps
client.  Arguments are converted in Python's evaluation order: origin
first, then destination. -/
def navigate (st : List AirportFacility) (current_lat current_lng : Option String)
    (facility_id : Option Nat) : NavOutcome :=
  if falsy current_lat || falsy current_lng || facility_id.isNone then
    .missingParams
  else
    match facility_id with
    | none => .missingParams
    | some fid =>
      match st.find? (fun f => f.id == fid) with
      | none => .facilityNotFound
      | some facility =>
        let destination_coords := splitOnComma facility.coordinates.toList
        if destination_coords.length ≠ 2 then .invalidCoordinates
        else
          match pyFloat (current_lat.getD ""), pyFloat (current_lng.getD "") with
          | some olat, some olng =>
            match destination_coords with
            | [c0, c1] =>
              match pyFloatChars c0, pyFloatChars c1 with
              | some dlat, some dlng => .directions (olat, olng) (dlat, dlng)
              | _, _ => .internalError
            | _ => .invalidCoordinates
          | _, _ => .internalError

/-- Embedding of the `GET /all/airport/facilities` handler
(`get_all_facilities` in `apps/app.py`): the database query either yields
the facility list (200) or raises (the `except` branch, whose literal
status code in the source is `50`). -/
def get_all_facilities (db : Except String (List AirportFacility)) : HttpResponse :=
  match db with
  | .ok _ => { status := 200, error := none }
  | .error _ => { status := 50, error := some "Internal server error" }

/-- The Haversine intermediate `a` always lies in `[0, 1]`, for all real
inputs: `a = (1 - (sin φ1 sin φ2 + cos φ1 cos φ2 cos dlon)) / 2` and the
inner term is bounded by `1` in absolute value. -/
theorem haverA_mem (lat1 lng1 lat2 lng2 : ℝ) :
    0 ≤ haverA lat1 lng1 lat2 lng2 ∧ haverA lat1 lng1 lat2 lng2 ≤ 1 := by
  unfold haverA
  set p1 := radians lat1
  set p2 := radians lat2
  set q1 := radians lng1
  set q2 := radians lng2
  have h1 : Real.sin ((p2 - p1) / 2) ^ 2 = 1 / 2 - Real.cos (p2 - p1) / 2 := by
    rw [Real.sin_sq_eq_half_sub, show 2 * ((p2 - p1) / 2) = p2 - p1 by ring]
  have h2 : Real.sin ((q2 - q1) / 2) ^ 2 = 1 / 2 - Real.cos (q2 - q1) / 2 := by
    rw [Real.sin_sq_eq_half_sub, show 2 * ((q2 - q1) / 2) = q2 - q1 by ring]
  have hc : Real.cos (p2 - p1) = Real.cos p2 * Real.cos p1 + Real.sin p2 * Real.sin p1 :=
    Real.cos_sub _ _
  have hs1 := Real.sin_sq_add_cos_sq p1
  have hs2 := Real.sin_sq_add_cos_sq p2
  have hd1 : Real.cos (q2 - q1) ≤ 1 := Real.cos_le_one _
  have hd2 : -1 ≤ Real.cos (q2 - q1) := Real.neg_one_le_cos _
  rw [h1, h2, hc]
  constructor
  · nlinarith [sq_nonneg (Real.sin p1 - Real.sin p2), sq_nonneg (Real.sin p1 + Real.sin p2),
      mul_nonneg (by linarith : (0:ℝ) ≤ 1 + Real.cos (q2 - q1))
        (sq_nonneg (Real.cos p1 - Real.cos p2)),
      mul_nonneg (by linarith : (0:ℝ) ≤ 1 - Real.cos (q2 - q1))
        (sq_nonneg (Real.cos p1 + Real.cos p2)),
      mul_nonneg (by linarith : (0:ℝ) ≤ 1 + Real.cos (q2 - q1))
        (sq_nonneg (Real.cos p1 + Real.cos p2)),
      mul_nonneg (by linarith : (0:ℝ) ≤ 1 - Real.cos (q2 - q1))
        (sq_nonneg (Real.cos p1 - Real.cos p2))]
  · nlinarith [sq_nonneg (Real.sin p1 - Real.sin p2), sq_nonneg (Real.sin p1 + Real.sin p2),
      mul_nonneg (by linarith : (0:ℝ) ≤ 1 + Real.cos (q2 - q1))
        (sq_nonneg (Real.cos p1 - Real.cos p2)),
      mul_nonneg (by linarith : (0:ℝ) ≤ 1 - Real.cos (q2 - q1))
        (sq_nonneg (Real.cos p1 + Real.cos p2)),
      mul_nonneg (by linarith : (0:ℝ) ≤ 1 + Real.cos (q2 - q1))
        (sq_nonneg (Real.cos p1 + Real.cos p2)),
      mul_nonneg (by linarith : (0:ℝ) ≤ 1 - Real.cos (q2 - q1))
        (sq_nonneg (Real.cos p1 - Real.cos p2))]

/-- On every input the guarded `sqrt` and `asin` succeed, and
`calculate_distance` returns the closed-form Haversine value. -/
theorem calculate_distance_eq (lat1 lng1 lat2 lng2 : ℝ) :
    calculate_distance lat1 lng1 lat2 lng2 =
      some (6371 * (2 * Real.arcsin (Real.sqrt (haverA lat1 lng1 lat2 lng2)))) := by
  obtain ⟨h0, h1⟩ := haverA_mem lat1 lng1 lat2 lng2
  have hsq : Real.sqrt (haverA lat1 lng1 lat2 lng2) ≤ 1 := by
    calc Real.sqrt (haverA lat1 lng1 lat2 lng2) ≤ Real.sqrt 1 := Real.sqrt_le_sqrt h1
    _ = 1 := Real.sqrt_one
  have hdom : ¬ (Real.sqrt (haverA lat1 lng1 lat2 lng2) < -1 ∨
      1 < Real.sqrt (haverA lat1 lng1 lat2 lng2)) := by
    push_neg
    exact ⟨by nlinarith [Real.sqrt_nonneg (haverA lat1 lng1 lat2 lng2)], hsq⟩
  unfold calculate_distance pySqrt pyAsin
  simp [not_lt.mpr h0, hdom]

/-- Distance from a point to itself: the intermediate `a` is `0`, so the
result is `some 0`. -/
theorem calculate_distance_self (lat lng : ℝ) :
    calculate_distance lat lng lat lng = some 0 := by
  have ha : haverA lat lng lat lng = 0 := by
    unfold haverA
    simp
  rw [calculate_distance_eq, ha]
  simp

/-- At the antipodal pair `(0,0)`, `(0,180)` the intermediate `a` is `1` and
the returned distance is `6371 · π`. -/
theorem calculate_distance_antipodal :
    calculate_distance 0 0 0 180 = some (6371 * Real.pi) := by
  have ha : haverA 0 0 0 180 = 1 := by
    unfold haverA radians
    rw [show (180:ℝ) * Real.pi / 180 = Real.pi by ring]
    norm_num
  rw [calculate_distance_eq, ha, Real.sqrt_one, Real.arcsin_one]
  congr 1
  ring

/-- The Haversine intermediate is symmetric in its two points. -/
theorem haverA_comm (lat1 lng1 lat2 lng2 : ℝ) :
    haverA lat1 lng1 lat2 lng2 = haverA lat2 lng2 lat1 lng1 := by
  unfold haverA
  have key : ∀ x y : ℝ, Real.sin ((x - y) / 2) ^ 2 = Real.sin ((y - x) / 2) ^ 2 := by
    intro x y
    rw [show (x - y) / 2 = -((y - x) / 2) by ring, Real.sin_neg]
    ring
  rw [key (radians lat2) (radians lat1), key (radians lng2) (radians lng1)]
  ring

/-- C1: for every four inputs in decimal degrees, `calculate_distance`
returns exactly the five-step Haversine reference value (radians
conversion, `dlat`/`dlon`, `a`, `c = 2·asin(sqrt a)`, `6371·c`). -/
theorem C1_calculate_distance_matches_reference (lat1 lng1 lat2 lng2 : ℝ) :
    calculate_distance lat1 lng1 lat2 lng2 =
      some (haversine_reference lat1 lng1 lat2 lng2) := by
  rw [calculate_distance_eq]
  rfl

/-- C2 counterexample: latitude 91 is outside `[-90, 90]`, yet
`calculate_distance 91 0 0 0` returns a numeric distance instead of
failing with an invalid-input error. -/
theorem C2_counterexample :
    (90:ℝ) < 91 ∧ calculate_distance 91 0 0 0 ≠ none := by
  refine ⟨by norm_num, ?_⟩
  rw [calculate_distance_eq]
  simp

/-- C2 (amended): `calculate_distance` performs no input validation; for
every four real coordinates, in range or not, it returns a numeric
distance. -/
theorem C2_no_input_validation (lat1 lng1 lat2 lng2 : ℝ) :
    (calculate_distance lat1 lng1 lat2 lng2).isSome = true := by
  rw [calculate_distance_eq]
  rfl

/-- C3: `calculate_distance` never clamps the intermediate `a`: the call
fails precisely when the unclamped `a` violates the domain of `sqrt` or of
`asin` (that failure propagating as `none`, never a sentinel), and every
returned value is the formula applied to the unclamped `a`. -/
theorem C3_domain_error_propagates (lat1 lng1 lat2 lng2 : ℝ) :
    (calculate_distance lat1 lng1 lat2 lng2 = none ↔
      haverA lat1 lng1 lat2 lng2 < 0 ∨ 1 < Real.sqrt (haverA lat1 lng1 lat2 lng2)) ∧
    ∀ d, calculate_distance lat1 lng1 lat2 lng2 = some d →
      d = 6371 * (2 * Real.arcsin (Real.sqrt (haverA lat1 lng1 lat2 lng2))) := by
  obtain ⟨h0, h1⟩ := haverA_mem lat1 lng1 lat2 lng2
  have hsq : Real.sqrt (haverA lat1 lng1 lat2 lng2) ≤ 1 := by
    calc Real.sqrt (haverA lat1 lng1 lat2 lng2) ≤ Real.sqrt 1 := Real.sqrt_le_sqrt h1
      _ = 1 := Real.sqrt_one
  constructor
  · rw [calculate_distance_eq]
    constructor
    · intro h
      exact absurd h (Option.some_ne_none _)
    · rintro (h | h)
      · exact absurd h (not_lt.mpr h0)
      · exact absurd h (not_lt.mpr hsq)
  · intro d hd
    rw [calculate_distance_eq] at hd
    exact (Option.some.inj hd).symm

/-- C3 witness: at the concrete input `(0,0,0,0)` the returned value `0`
equals the unclamped closed form. -/
theorem C3_witness :
    (0:ℝ) = 6371 * (2 * Real.arcsin (Real.sqrt (haverA 0 0 0 0))) :=
  (C3_domain_error_propagates 0 0 0 0).2 0 (calculate_distance_self 0 0)

/-- C4: for every point, the distance from the point to itself is zero. -/
theorem C4_self_distance_zero (lat lng : ℝ) :
    calculate_distance lat lng lat lng = some 0 :=
  calculate_distance_self lat lng

/-- C5: `calculate_distance` is symmetric in its two points. -/
theorem C5_symmetric (lat1 lng1 lat2 lng2 : ℝ) :
    calculate_distance lat1 lng1 lat2 lng2 = calculate_distance lat2 lng2 lat1 lng1 := by
  unfold calculate_distance
  rw [haverA_comm]

/-- C6: whenever `calculate_distance` returns a value, that value is
nonnegative. -/
theorem C6_result_nonneg (lat1 lng1 lat2 lng2 d : ℝ)
    (h : calculate_distance lat1 lng1 lat2 lng2 = some d) : 0 ≤ d := by
  rw [calculate_distance_eq] at h
  have hd := Option.some.inj h
  have hx : 0 ≤ Real.arcsin (Real.sqrt (haverA lat1 lng1 lat2 lng2)) :=
    Real.arcsin_nonneg.mpr (Real.sqrt_nonneg _)
  linarith [hd]

/-- C6 witness: the antipodal call returns `6371·π`, which is nonnegative. -/
theorem C6_witness : (0:ℝ) ≤ 6371 * Real.pi :=
  C6_result_nonneg 0 0 0 180 (6371 * Real.pi) calculate_distance_antipodal

/-- C7: on the antipodal pair `(0,0)` and `(0,180)` the function returns
`6371·π`, which is within 0.5% of 20015 km. -/
theorem C7_antipodal_half_circumference :
    calculate_distance 0 0 0 180 = some (6371 * Real.pi) ∧
      |6371 * Real.pi - 20015| ≤ 0.005 * 20015 := by
  refine ⟨calculate_distance_antipodal, ?_⟩
  rw [abs_le]
  constructor <;> linarith [Real.pi_gt_d6, Real.pi_lt_d6]

/-- Staging the batch fails (the handler returns 400 before commit) as soon
as some item misses a required field. -/
theorem stageAll_eq_none : ∀ (fid : Nat) (items : List FacilityInput),
    (∃ it ∈ items, it.name = none ∨ it.category = none ∨ it.coordinates = none) →
    stageAll fid items = none := by
  intro fid items
  induction items generalizing fid with
  | nil =>
    rintro ⟨it, hmem, -⟩
    simp at hmem
  | cons it rest ih =>
    rintro ⟨jt, hmem, hj⟩
    unfold stageAll
    by_cases hf : (falsy it.name || falsy it.category || falsy it.coordinates) = true
    · rw [if_pos hf]
    · rw [if_neg hf]
      rcases List.mem_cons.mp hmem with heq | hmem2
      · exfalso
        apply hf
        subst heq
        rcases hj with h | h | h <;> simp [falsy, h]
      · rw [ih (fid + 1) ⟨jt, hmem2, hj⟩]
        rfl

/-- C9: if any item of the batch request misses `name`, `category` or
`coordinates`, the batch-add endpoint answers 400 and the committed
facility table is unchanged, whatever the other items were. -/
theorem C9_batch_validation_commits_nothing (st : List AirportFacility)
    (items : List FacilityInput)
    (h : ∃ it ∈ items, it.name = none ∨ it.category = none ∨ it.coordinates = none) :
    (add_multiple_facilities_batch st items).1.status = 400 ∧
      (add_multiple_facilities_batch st items).2 = st := by
  unfold add_multiple_facilities_batch
  rw [stageAll_eq_none (st.length + 1) items h]
  exact ⟨rfl, rfl⟩

/-- C9 witness: a two-item batch whose second item lacks `category` is
rejected with 400 and commits nothing, although its first item is valid. -/
theorem C9_witness :
    (∃ it ∈ [({ name := some "Gate 1", category := some "Gate",
                coordinates := some "12.9,77.6", description := none } : FacilityInput),
             { name := some "Lounge A", category := none,
               coordinates := some "13.0,77.7", description := none }],
        it.name = none ∨ it.category = none ∨ it.coordinates = none) ∧
    (add_multiple_facilities_batch []
        [({ name := some "Gate 1", category := some "Gate",
            coordinates := some "12.9,77.6", description := none } : FacilityInput),
         { name := some "Lounge A", category := none,
           coordinates := some "13.0,77.7", description := none }]).1.status = 400 ∧
    (add_multiple_facilities_batch []
        [({ name := some "Gate 1", category := some "Gate",
            coordinates := some "12.9,77.6", description := none } : FacilityInput),
         { name := some "Lounge A", category := none,
           coordinates := some "13.0,77.7", description := none }]).2 = [] :=
  ⟨by decide, C9_batch_validation_commits_nothing _ _ (by decide)⟩

/-- C8: a coordinates string that does not split into exactly two
comma-separated numeric substrings is accepted and stored verbatim by the
single-add and batch-add endpoints (201, record appended unchanged), but
the navigation endpoint answers an error — the 400 "Invalid coordinates
format" response or the 500 exception response — instead of directions for
a facility carrying it. -/
theorem C8_bad_coords_write_accepted_read_rejected
    (st st2 : List AirportFacility) (fname fcategory coords : String)
    (desc : Option String) (clat clng : String) (fid : Nat) (f : AirportFacility)
    (hbad : validCoordString coords = false)
    (hname : fname ≠ "") (hcategory : fcategory ≠ "") (hcoords : coords ≠ "")
    (hfind : st2.find? (fun g => g.id == fid) = some f)
    (hfc : f.coordinates = coords)
    (hclat : clat ≠ "") (hclng : clng ≠ "") :
    ((add_facility st ⟨some fname, some fcategory, some coords, desc⟩).1.status = 201 ∧
      (add_facility st ⟨some fname, some fcategory, some coords, desc⟩).2 =
        st ++ [{ id := st.length + 1, name := fname, category := fcategory,
                 coordinates := coords, description := desc.getD "" }]) ∧
    ((add_multiple_facilities_batch st
        [⟨some fname, some fcategory, some coords, desc⟩]).1.status = 201 ∧
      (add_multiple_facilities_batch st
        [⟨some fname, some fcategory, some coords, desc⟩]).2 =
        st ++ [{ id := st.length + 1, name := fname, category := fcategory,
                 coordinates := coords, description := desc.getD "" }]) ∧
    (navigate st2 (some clat) (some clng) (some fid) = NavOutcome.invalidCoordinates ∨
      navigate st2 (some clat) (some clng) (some fid) = NavOutcome.internalError) := by
  refine ⟨⟨rfl, rfl⟩, ?_, ?_⟩
  · have hb : stageAll (st.length + 1) [⟨some fname, some fcategory, some coords, desc⟩] =
        some [mkFacility (st.length + 1) ⟨some fname, some fcategory, some coords, desc⟩] := by
      simp [stageAll, falsy, hname, hcategory, hcoords]
    unfold add_multiple_facilities_batch
    rw [hb]
    exact ⟨rfl, by simp [mkFacility]⟩
  · unfold navigate
    have h1 : falsy (some clat) = false := by simp [falsy, hclat]
    have h2 : falsy (some clng) = false := by simp [falsy, hclng]
    simp only [h1, h2, Option.isNone_some, Bool.or_self, Bool.or_false, Bool.false_or,
      if_false, Bool.false_eq_true, ite_false]
    rw [hfind]
    dsimp only
    rw [hfc]
    unfold validCoordString at hbad
    rcases hsp : splitOnComma coords.toList with - | ⟨a, - | ⟨b, - | ⟨c, l4⟩⟩⟩
    · left
      simp [hsp]
    · left
      simp [hsp]
    · rw [hsp] at hbad
      right
      simp only [hsp]
      norm_num
      rcases hc1 : pyFloat clat with - | olat
      · simp [hc1]
      rcases hc2 : pyFloat clng with - | olng
      · simp [hc1, hc2]
      rcases hpa : pyFloatChars a with - | da
      · simp [hc1, hc2, hpa]
      rcases hpb : pyFloatChars b with - | db
      · simp [hc1, hc2, hpa, hpb]
      · simp [hpa, hpb] at hbad
    · left
      simp [hsp]

/-- C8 witness: the coordinates string `"abc"` is invalid; adding it
succeeds with 201, and navigation to the stored facility answers an error
instead of directions. -/
theorem C8_witness :
    validCoordString "abc" = false ∧
    (((add_facility [] ⟨some "Gate 1", some "Gate", some "abc", none⟩).1.status = 201 ∧
      (add_facility [] ⟨some "Gate 1", some "Gate", some "abc", none⟩).2 =
        [] ++ [{ id := 1, name := "Gate 1", category := "Gate",
                 coordinates := "abc", description := (none : Option String).getD "" }]) ∧
    ((add_multiple_facilities_batch []
        [⟨some "Gate 1", some "Gate", some "abc", none⟩]).1.status = 201 ∧
      (add_multiple_facilities_batch []
        [⟨some "Gate 1", some "Gate", some "abc", none⟩]).2 =
        [] ++ [{ id := 1, name := "Gate 1", category := "Gate",
                 coordinates := "abc", description := (none : Option String).getD "" }]) ∧
    (navigate [{ id := 1, name := "Gate 1", category := "Gate",
                 coordinates := "abc", description := "" }]
        (some "12.9") (some "77.6") (some 1) = NavOutcome.invalidCoordinates ∨
      navigate [{ id := 1, name := "Gate 1", category := "Gate",
                  coordinates := "abc", description := "" }]
        (some "12.9") (some "77.6") (some 1) = NavOutcome.internalError)) :=
  ⟨by decide,
    C8_bad_coords_write_accepted_read_rejected []
      [{ id := 1, name := "Gate 1", category := "Gate",
         coordinates := "abc", description := "" }]
      "Gate 1" "Gate" "abc" none "12.9" "77.6" 1
      { id := 1, name := "Gate 1", category := "Gate",
        coordinates := "abc", description := "" }
      (by decide) (by decide) (by decide) (by decide) rfl rfl (by decide) (by decide)⟩

/-- C10: the retrieve-all-facilities handler's exception branch answers
with HTTP status 50, not 500, while (for contrast) the add-facility
handler's exception branch answers 500. -/
theorem C10_get_all_facilities_error_status_50 (e : String) (st : List AirportFacility) :
    (get_all_facilities (.error e)).status = 50 ∧
      (get_all_facilities (.error e)).status ≠ 500 ∧
      (add_facility st ⟨none, none, none, none⟩).1.status = 500 :=
  ⟨rfl, by simp [get_all_facilities], rfl⟩

end AirportTrolly
